import Mathlib

/-!
Shallow embedding of the cache-aside layer of the MCP server
(`src/mcp-server/src/scripts/generate-types.ts`).

The embedded code is the module-level redis initialisation (lines 104-125),
`getCachedOrFetch` (lines 215-235), `invalidateCache` (lines 237-245), the
route handlers that call them, and the Fastify error handler (lines 690-696).

External collaborators (the redis client, JS's `JSON.parse`/`JSON.stringify`,
supabase) are modelled as explicit inputs:
* the redis connection is `Option CacheState` (`none` = disabled, exactly the
  source's `redis = null`);
* each redis command that may reject carries an `Option ε` outcome in a
  `CacheOutcomes` record (`none` = the command succeeds, `some e` = the awaited
  promise rejects with `e`);
* `JSON.stringify` / `JSON.parse` are abstract functions
  `stringify : V → String`, `parse : String → V`;
* a supabase call's outcome is an `Except ε V` argument;
* redis's glob pattern matching (`KEYS pattern`) is `globMatch`, modelled from
  the spec: the cache backend's pattern-based key enumeration
  (`keysMatching(pattern) -> [key]`, prefix/wildcard patterns).

Every embedded operation returns, alongside its `Except` result and the new
connection state, the list of cache/fetch calls it performed (`CacheEv`), so
that "the fetcher is not invoked" and "no delete is issued" are statements
about the trace.
-/

/-- One stored cache entry: the serialized payload and the TTL it was stored
with (`redis.setex key ttl value`). Expiry is modelled as removal: the store
only ever contains unexpired entries. -/
structure CacheEntry where
  val : String
  ttl : Nat
deriving Repr, DecidableEq

/-- The key-value store behind a live redis connection, as an association
list. -/
structure CacheState where
  store : List (String × CacheEntry)
deriving Repr, DecidableEq

/-- `redis.get key`: the first entry stored under `key`. -/
def CacheState.lookup (st : CacheState) (k : String) : Option CacheEntry :=
  (st.store.find? (fun p => p.1 == k)).map Prod.snd

/-- `redis.setex key ttl value`: replace any entry under `key`. -/
def CacheState.setex (st : CacheState) (k : String) (ttl : Nat) (v : String) :
    CacheState :=
  ⟨(k, ⟨v, ttl⟩) :: st.store.filter (fun p => !(p.1 == k))⟩

/-- The keys currently present (what `redis.keys` enumerates before pattern
filtering). -/
def CacheState.keysList (st : CacheState) : List String :=
  st.store.map Prod.fst

/-- `redis.del key1 key2 ...`: remove every entry whose key is in `ks`. -/
def CacheState.del (st : CacheState) (ks : List String) : CacheState :=
  ⟨st.store.filter (fun p => !(ks.contains p.1))⟩

/-- Modelled from the spec: the cache backend's prefix/wildcard pattern match
used by `keysMatching(pattern)`. `*` matches any sequence of characters, `?`
any single character, every other pattern character only itself. The source
only ever passes patterns built from literal characters and a trailing `*`. -/
def globMatch : List Char → List Char → Bool
  | [], s => s.isEmpty
  | c :: ps, s =>
    if c = '*' then
      (List.tails s).any (fun suf => globMatch ps suf)
    else
      match s with
      | [] => false
      | d :: cs => (c = '?' || c == d) && globMatch ps cs

/-- Pattern matching on strings (pattern first, candidate key second). -/
def globMatchS (pat k : String) : Bool :=
  globMatch pat.toList k.toList

/-- The cache / fetch calls an operation performs, in order. -/
inductive CacheEv where
  | get (key : String)
  | setex (key : String) (ttl : Nat) (val : String)
  | fetchCall
  | keys (pattern : String)
  | del (keys : List String)
deriving Repr, DecidableEq

/-- Outcomes of the redis commands an operation may issue: `none` means the
command succeeds against the store, `some e` means the awaited promise rejects
with `e` (the connection is still considered live: the source's `redis`
variable is not reassigned by a command rejection). -/
structure CacheOutcomes (ε : Type) where
  getErr : Option ε
  setErr : Option ε
  keysErr : Option ε
  delErr : Option ε
deriving Repr

/-- A `CacheOutcomes` in which every issued command succeeds. -/
def CacheOutcomes.allOk (ε : Type) : CacheOutcomes ε := ⟨none, none, none, none⟩

/-- JS truthiness of `redis.get`'s result (`null` and `""` are falsy): the
source's hit test is `if (cached)`. -/
def jsTruthy : Option String → Bool
  | none => false
  | some s => !(s == "")

/-- `getCachedOrFetch(cacheKey, fetcher, ttl)` (source lines 215-235):

* `redis` null: call the fetcher directly, no cache traffic;
* otherwise `await redis.get(cacheKey)`; a rejection propagates (there is no
  try/catch in the source);
* on a truthy hit return `JSON.parse(cached)` without calling the fetcher;
* on a miss call the fetcher; a fetcher rejection propagates and nothing is
  stored; on success `await redis.setex(cacheKey, ttl, JSON.stringify(data))`
  (a rejection propagates) and return the fetched value. -/
def getCachedOrFetch {V ε : Type} (stringify : V → String) (parse : String → V)
    (io : CacheOutcomes ε) (redis : Option CacheState) (cacheKey : String)
    (fetcher : Except ε V) (ttl : Nat) :
    Except ε V × Option CacheState × List CacheEv :=
  match redis with
  | none => (fetcher, none, [CacheEv.fetchCall])
  | some st =>
    match io.getErr with
    | some e => (Except.error e, some st, [CacheEv.get cacheKey])
    | none =>
      let cached := (st.lookup cacheKey).map CacheEntry.val
      if jsTruthy cached then
        (Except.ok (parse (cached.getD "")), some st, [CacheEv.get cacheKey])
      else
        match fetcher with
        | Except.error e =>
          (Except.error e, some st, [CacheEv.get cacheKey, CacheEv.fetchCall])
        | Except.ok data =>
          match io.setErr with
          | some e =>
            (Except.error e, some st,
              [CacheEv.get cacheKey, CacheEv.fetchCall,
               CacheEv.setex cacheKey ttl (stringify data)])
          | none =>
            (Except.ok data, some (st.setex cacheKey ttl (stringify data)),
              [CacheEv.get cacheKey, CacheEv.fetchCall,
               CacheEv.setex cacheKey ttl (stringify data)])

/-- `invalidateCache(pattern)` (source lines 237-245): no-op when `redis` is
null; otherwise `await redis.keys(pattern)` (a rejection propagates), and only
when at least one key matched, `await redis.del(...keys)` (a rejection
propagates). -/
def invalidateCache {ε : Type} (io : CacheOutcomes ε) (redis : Option CacheState)
    (pattern : String) : Except ε Unit × Option CacheState × List CacheEv :=
  match redis with
  | none => (Except.ok (), none, [])
  | some st =>
    match io.keysErr with
    | some e => (Except.error e, some st, [CacheEv.keys pattern])
    | none =>
      let ks := st.keysList.filter (fun k => globMatchS pattern k)
      if ks.length > 0 then
        match io.delErr with
        | some e =>
          (Except.error e, some st, [CacheEv.keys pattern, CacheEv.del ks])
        | none =>
          (Except.ok (), some (st.del ks),
            [CacheEv.keys pattern, CacheEv.del ks])
      else
        (Except.ok (), some st, [CacheEv.keys pattern])

/-- The default TTL of `getCachedOrFetch`'s third parameter
(`ttl: number = 300`). -/
def ttlDefault : Nat := 300

/-- The TTL the orders listing route passes explicitly
(`}, 60); // Cache for 1 minute`). -/
def ttlOrdersList : Nat := 60

/-- `GET /api/users` (source lines 248-285): the all-users listing, cached
under `users:all` with the default TTL. `fetchUsers` is the outcome of the
supabase select. -/
def getUsersRoute {V ε : Type} (stringify : V → String) (parse : String → V)
    (io : CacheOutcomes ε) (redis : Option CacheState) (fetchUsers : Except ε V) :
    Except ε V × Option CacheState × List CacheEv :=
  getCachedOrFetch stringify parse io redis "users:all" fetchUsers ttlDefault

/-- `GET /api/users/:id` (source lines 287-330): a single user, cached under
`user:{id}` with the default TTL. -/
def getUserByIdRoute {V ε : Type} (stringify : V → String) (parse : String → V)
    (io : CacheOutcomes ε) (redis : Option CacheState) (id : String)
    (fetchUser : Except ε V) :
    Except ε V × Option CacheState × List CacheEv :=
  getCachedOrFetch stringify parse io redis ("user:" ++ id) fetchUser ttlDefault

/-- `GET /api/orders` (source lines 487-557): the filtered orders listing,
cached under `orders:{JSON.stringify(params)}` with TTL 60. `paramsJson`
stands for the serialized query parameters. -/
def getOrdersRoute {V ε : Type} (stringify : V → String) (parse : String → V)
    (io : CacheOutcomes ε) (redis : Option CacheState) (paramsJson : String)
    (fetchOrders : Except ε V) :
    Except ε V × Option CacheState × List CacheEv :=
  getCachedOrFetch stringify parse io redis ("orders:" ++ paramsJson)
    fetchOrders ttlOrdersList

/-- `POST /api/users` (source lines 332-388): insert, then on success
`await invalidateCache('users:*')`, then reply 201 with the row. A rejection
of the supabase insert or of the invalidation propagates. -/
def postUserRoute {V ε : Type} (io : CacheOutcomes ε) (redis : Option CacheState)
    (insertResult : Except ε V) :
    Except ε V × Option CacheState × List CacheEv :=
  match insertResult with
  | Except.error e => (Except.error e, redis, [])
  | Except.ok row =>
    let r := invalidateCache io redis "users:*"
    match r.1 with
    | Except.error e => (Except.error e, r.2.1, r.2.2)
    | Except.ok _ => (Except.ok row, r.2.1, r.2.2)

/-- `PATCH /api/users/:id` (source lines 390-450): update, then on success
`await invalidateCache('user:{id}')` and `await invalidateCache('users:*')`,
then reply with the row. Each invalidation uses its own command outcomes. -/
def patchUserRoute {V ε : Type} (io1 io2 : CacheOutcomes ε)
    (redis : Option CacheState) (id : String) (updateResult : Except ε V) :
    Except ε V × Option CacheState × List CacheEv :=
  match updateResult with
  | Except.error e => (Except.error e, redis, [])
  | Except.ok row =>
    let r1 := invalidateCache io1 redis ("user:" ++ id)
    match r1.1 with
    | Except.error e => (Except.error e, r1.2.1, r1.2.2)
    | Except.ok _ =>
      let r2 := invalidateCache io2 r1.2.1 "users:*"
      match r2.1 with
      | Except.error e => (Except.error e, r2.2.1, r1.2.2 ++ r2.2.2)
      | Except.ok _ => (Except.ok row, r2.2.1, r1.2.2 ++ r2.2.2)

/-- `DELETE /api/users/:id` (source lines 452-484): delete, then on success
the same two invalidations, then reply 204. -/
def deleteUserRoute {ε : Type} (io1 io2 : CacheOutcomes ε)
    (redis : Option CacheState) (id : String) (deleteResult : Except ε Unit) :
    Except ε Unit × Option CacheState × List CacheEv :=
  match deleteResult with
  | Except.error e => (Except.error e, redis, [])
  | Except.ok _ =>
    let r1 := invalidateCache io1 redis ("user:" ++ id)
    match r1.1 with
    | Except.error e => (Except.error e, r1.2.1, r1.2.2)
    | Except.ok _ =>
      let r2 := invalidateCache io2 r1.2.1 "users:*"
      match r2.1 with
      | Except.error e => (Except.error e, r2.2.1, r1.2.2 ++ r2.2.2)
      | Except.ok _ => (Except.ok (), r2.2.1, r1.2.2 ++ r2.2.2)

/-- What the HTTP layer sends for a handler outcome. -/
structure HttpReply (ε V : Type) where
  status : Nat
  body : Except ε V
deriving Repr

/-- `app.setErrorHandler` (source lines 690-696): a handler that resolves
replies with its success code; a handler that rejects is turned into a 500
reply carrying the error. -/
def runWithErrorHandler {ε V : Type} (okCode : Nat) (r : Except ε V) :
    HttpReply ε V :=
  match r with
  | Except.ok v => ⟨okCode, Except.ok v⟩
  | Except.error e => ⟨500, Except.error e⟩

/-- The module-level redis initialisation (source lines 104-125): the client
is created and `await redis.ping()` is tried; if construction or the ping
throws, the catch block sets `redis = null`. A fresh connection starts with an
empty store view. -/
def initRedis (pingOk : Bool) : Option CacheState :=
  if pingOk then some ⟨[]⟩ else none

/-- Everything that can touch the module-level `redis` variable or the store
after startup: the `redis.on('error', ...)` handler (which sets `redis =
null`), a read through `getCachedOrFetch`, or an `invalidateCache` call.
These are the only places the source reads or writes the connection. -/
inductive ServerEvent (V ε : Type) where
  | errorEvent : ServerEvent V ε
  | readOp : CacheOutcomes ε → String → Except ε V → Nat → ServerEvent V ε
  | invalidateOp : CacheOutcomes ε → String → ServerEvent V ε

/-- The connection-state transition each event causes. -/
def stepServer {V ε : Type} (stringify : V → String) (parse : String → V)
    (redis : Option CacheState) : ServerEvent V ε → Option CacheState
  | ServerEvent.errorEvent => none
  | ServerEvent.readOp io key f ttl =>
    (getCachedOrFetch stringify parse io redis key f ttl).2.1
  | ServerEvent.invalidateOp io p => (invalidateCache io redis p).2.1

/-- Concrete serializer used to instantiate the abstract `JSON.stringify` in
witnesses and counterexamples (unary, so that the round-trip is exact and
kernel-evaluable). -/
def natStringify (n : Nat) : String := String.mk (List.replicate n 'x')

/-- Concrete deserializer used to instantiate the abstract `JSON.parse` in
witnesses and counterexamples. -/
def natParse (s : String) : Nat := s.toList.length

/- ## Store lemmas -/

theorem lookup_setex_self (st : CacheState) (k : String) (ttl : Nat)
    (v : String) : (st.setex k ttl v).lookup k = some ⟨v, ttl⟩ := by
  simp [CacheState.setex, CacheState.lookup, List.find?]

theorem del_nil (st : CacheState) : st.del [] = st := by
  cases st
  simp [CacheState.del]

theorem lookup_del_of_mem (st : CacheState) {k : String} {ks : List String}
    (h : k ∈ ks) : (st.del ks).lookup k = none := by
  simp only [CacheState.lookup, CacheState.del, Option.map_eq_none',
    List.find?_eq_none]
  intro p hp
  rw [List.mem_filter] at hp
  intro hbeq
  rw [beq_iff_eq] at hbeq
  have := hp.2
  rw [hbeq] at this
  simp [h] at this

theorem lookup_del_none {st : CacheState} {k : String} (ks : List String)
    (h : st.lookup k = none) : (st.del ks).lookup k = none := by
  simp only [CacheState.lookup, CacheState.del, Option.map_eq_none',
    List.find?_eq_none] at h ⊢
  intro p hp
  rw [List.mem_filter] at hp
  exact h p hp.1

theorem mem_keysList_of_lookup {st : CacheState} {k : String} {e : CacheEntry}
    (h : st.lookup k = some e) : k ∈ st.keysList := by
  simp only [CacheState.lookup, Option.map_eq_some'] at h
  rcases h with ⟨p, hp, _⟩
  have hmem := List.mem_of_find?_eq_some hp
  have hbeq := List.find?_some hp
  rw [beq_iff_eq] at hbeq
  exact hbeq ▸ List.mem_map.2 ⟨p, hmem, rfl⟩

/- ## Glob matcher lemmas -/

theorem globMatch_star (r : List Char) : globMatch ['*'] r = true := by
  simp [globMatch, List.any_eq_true]

theorem globMatch_self {p : List Char} (h : ∀ c ∈ p, c ≠ '*' ∧ c ≠ '?') :
    globMatch p p = true := by
  induction p with
  | nil => simp [globMatch]
  | cons c ps ih =>
    have hc := h c (List.mem_cons_self c ps)
    have hps : ∀ d ∈ ps, d ≠ '*' ∧ d ≠ '?' :=
      fun d hd => h d (List.mem_cons_of_mem c hd)
    rw [globMatch]
    simp [hc.1, hc.2, ih hps]

theorem globMatch_lit_star {p : List Char} (r : List Char)
    (h : ∀ c ∈ p, c ≠ '*' ∧ c ≠ '?') :
    globMatch (p ++ ['*']) (p ++ r) = true := by
  induction p with
  | nil => exact globMatch_star r
  | cons c ps ih =>
    have hc := h c (List.mem_cons_self c ps)
    have hps : ∀ d ∈ ps, d ≠ '*' ∧ d ≠ '?' :=
      fun d hd => h d (List.mem_cons_of_mem c hd)
    rw [List.cons_append, List.cons_append, globMatch]
    simp [hc.1, hc.2, ih hps]

theorem string_toList_append (a b : String) :
    (a ++ b).toList = a.toList ++ b.toList := by
  simp [String.toList]

/- ## Operation lemmas -/

theorem getCachedOrFetch_populate {V ε : Type} (strf : V → String)
    (prs : String → V) (io : CacheOutcomes ε) (st : CacheState) (key : String)
    (v : V) (ttl : Nat)
    (hmiss : st.lookup key = none)
    (hget : io.getErr = none) (hset : io.setErr = none) :
    getCachedOrFetch strf prs io (some st) key (Except.ok v) ttl =
      (Except.ok v, some (st.setex key ttl (strf v)),
       [CacheEv.get key, CacheEv.fetchCall,
        CacheEv.setex key ttl (strf v)]) := by
  simp [getCachedOrFetch, hget, hset, hmiss, jsTruthy]

theorem getCachedOrFetch_hit {V ε : Type} (strf : V → String)
    (prs : String → V) (io : CacheOutcomes ε) (st : CacheState) (key : String)
    (s : String) (ttl ttl2 : Nat) (f : Except ε V)
    (hstored : st.lookup key = some ⟨s, ttl⟩) (hnz : s ≠ "")
    (hget : io.getErr = none) :
    getCachedOrFetch strf prs io (some st) key f ttl2 =
      (Except.ok (prs s), some st, [CacheEv.get key]) := by
  simp [getCachedOrFetch, hget, hstored, jsTruthy, hnz]

theorem fetchCall_of_miss {V ε : Type} (strf : V → String) (prs : String → V)
    (io : CacheOutcomes ε) (st : CacheState) (key : String) (f : Except ε V)
    (ttl : Nat) (hmiss : st.lookup key = none) (hget : io.getErr = none) :
    CacheEv.fetchCall ∈ (getCachedOrFetch strf prs io (some st) key f ttl).2.2 := by
  simp only [getCachedOrFetch, hget, hmiss, jsTruthy]
  cases f with
  | error e => simp
  | ok v => cases io.setErr <;> simp

theorem invalidateCache_ok_eq {ε : Type} (io : CacheOutcomes ε) (st : CacheState)
    (pattern : String) (h1 : io.keysErr = none) (h2 : io.delErr = none) :
    ∃ tr, invalidateCache io (some st) pattern =
      (Except.ok (),
       some (st.del (st.keysList.filter (fun k => globMatchS pattern k))), tr) := by
  simp only [invalidateCache, h1, h2]
  split
  next => exact ⟨_, rfl⟩
  next hneg =>
    have hnil : st.keysList.filter (fun k => globMatchS pattern k) = [] :=
      List.length_eq_zero.mp (Nat.eq_zero_of_not_pos hneg)
    rw [hnil, del_nil]
    exact ⟨_, rfl⟩

/- ## Claims -/

/-- C1: once `getCachedOrFetch` has populated a key (with the cache
connected), a subsequent call with the same key returns the deserialized
stored value, does not invoke the fetcher, and leaves the cache state
unchanged — so the same holds for every further call until the entry expires
or is invalidated (both modelled as removal from the store). -/
theorem C1_hit_after_populate {V ε : Type} (strf : V → String)
    (prs : String → V) (io1 io2 : CacheOutcomes ε) (st : CacheState) (key : String)
    (v : V) (f2 : Except ε V) (ttl ttl2 : Nat)
    (hmiss : st.lookup key = none)
    (h1g : io1.getErr = none) (h1s : io1.setErr = none)
    (h2g : io2.getErr = none) (hnz : strf v ≠ "") :
    (getCachedOrFetch strf prs io2
        (getCachedOrFetch strf prs io1 (some st) key (Except.ok v) ttl).2.1
        key f2 ttl2).1 = Except.ok (prs (strf v)) ∧
    CacheEv.fetchCall ∉
      (getCachedOrFetch strf prs io2
        (getCachedOrFetch strf prs io1 (some st) key (Except.ok v) ttl).2.1
        key f2 ttl2).2.2 ∧
    (getCachedOrFetch strf prs io2
        (getCachedOrFetch strf prs io1 (some st) key (Except.ok v) ttl).2.1
        key f2 ttl2).2.1 =
      (getCachedOrFetch strf prs io1 (some st) key (Except.ok v) ttl).2.1 := by
  rw [getCachedOrFetch_populate strf prs io1 st key v ttl hmiss h1g h1s]
  simp only
  rw [getCachedOrFetch_hit strf prs io2 (st.setex key ttl (strf v)) key
    (strf v) ttl ttl2 f2 (lookup_setex_self st key ttl (strf v)) hnz h2g]
  simp

/-- Witness for C1 at a concrete populate-then-read pair. -/
theorem C1_hit_after_populate_witness :
    CacheState.lookup ⟨[]⟩ "user:42" = none ∧ natStringify 7 ≠ "" ∧
    ((getCachedOrFetch natStringify natParse (CacheOutcomes.allOk String)
        (getCachedOrFetch natStringify natParse (CacheOutcomes.allOk String)
          (some ⟨[]⟩) "user:42" (Except.ok 7) 300).2.1
        "user:42" (Except.ok 9) 300).1 = Except.ok (natParse (natStringify 7)) ∧
      CacheEv.fetchCall ∉
        (getCachedOrFetch natStringify natParse (CacheOutcomes.allOk String)
          (getCachedOrFetch natStringify natParse (CacheOutcomes.allOk String)
            (some ⟨[]⟩) "user:42" (Except.ok 7) 300).2.1
          "user:42" (Except.ok 9) 300).2.2 ∧
      (getCachedOrFetch natStringify natParse (CacheOutcomes.allOk String)
          (getCachedOrFetch natStringify natParse (CacheOutcomes.allOk String)
            (some ⟨[]⟩) "user:42" (Except.ok 7) 300).2.1
          "user:42" (Except.ok 9) 300).2.1 =
        (getCachedOrFetch natStringify natParse (CacheOutcomes.allOk String)
          (some ⟨[]⟩) "user:42" (Except.ok 7) 300).2.1) :=
  ⟨rfl, by decide,
    C1_hit_after_populate natStringify natParse (CacheOutcomes.allOk String)
      (CacheOutcomes.allOk String) ⟨[]⟩ "user:42" 7 (Except.ok 9) 300 300
      rfl rfl rfl rfl (by decide)⟩

/-- C2: on a miss (cache connected, get succeeds), a failing fetcher's error
is returned verbatim, the cache state is unchanged, and no store operation is
issued. -/
theorem C2_fetch_failure_not_cached {V ε : Type} (strf : V → String)
    (prs : String → V) (io : CacheOutcomes ε) (st : CacheState) (key : String)
    (ttl : Nat) (e : ε)
    (hget : io.getErr = none) (hmiss : st.lookup key = none) :
    getCachedOrFetch strf prs io (some st) key (Except.error e) ttl =
      (Except.error e, some st, [CacheEv.get key, CacheEv.fetchCall]) ∧
    ∀ k t s, CacheEv.setex k t s ∉
      (getCachedOrFetch strf prs io (some st) key (Except.error e) ttl).2.2 := by
  have h : getCachedOrFetch strf prs io (some st) key (Except.error e) ttl =
      (Except.error e, some st, [CacheEv.get key, CacheEv.fetchCall]) := by
    simp [getCachedOrFetch, hget, hmiss, jsTruthy]
  refine ⟨h, ?_⟩
  rw [h]
  simp

/-- Witness for C2 at a concrete failing fetch. -/
theorem C2_fetch_failure_not_cached_witness :
    (CacheOutcomes.allOk String).getErr = none ∧
    CacheState.lookup ⟨[]⟩ "user:1" = none ∧
    (getCachedOrFetch natStringify natParse (CacheOutcomes.allOk String)
        (some ⟨[]⟩) "user:1" (Except.error "db down") 300 =
      (Except.error "db down", some ⟨[]⟩,
       [CacheEv.get "user:1", CacheEv.fetchCall]) ∧
     ∀ k t s, CacheEv.setex k t s ∉
       (getCachedOrFetch natStringify natParse (CacheOutcomes.allOk String)
         (some ⟨[]⟩) "user:1" (Except.error "db down") 300).2.2) :=
  ⟨rfl, rfl,
    C2_fetch_failure_not_cached natStringify natParse (CacheOutcomes.allOk String)
      ⟨[]⟩ "user:1" 300 "db down" rfl rfl⟩

/-- C6: with the cache backend unavailable (`redis = null`), the read calls
the fetcher exactly once, returns its result, and issues no cache operation
at all. -/
theorem C6_degraded_direct_fetch {V ε : Type} (strf : V → String)
    (prs : String → V) (io : CacheOutcomes ε) (key : String) (f : Except ε V)
    (ttl : Nat) :
    getCachedOrFetch strf prs io none key f ttl = (f, none, [CacheEv.fetchCall]) ∧
    ((getCachedOrFetch strf prs io none key f ttl).2.2).count CacheEv.fetchCall = 1 ∧
    (∀ k, CacheEv.get k ∉ (getCachedOrFetch strf prs io none key f ttl).2.2) ∧
    (∀ k t s, CacheEv.setex k t s ∉ (getCachedOrFetch strf prs io none key f ttl).2.2) ∧
    (∀ p, CacheEv.keys p ∉ (getCachedOrFetch strf prs io none key f ttl).2.2) ∧
    (∀ ks, CacheEv.del ks ∉ (getCachedOrFetch strf prs io none key f ttl).2.2) := by
  refine ⟨rfl, ?_, ?_, ?_, ?_, ?_⟩ <;> simp [getCachedOrFetch]

/-- C9: a cache hit on a key populated by `getCachedOrFetch` returns exactly
the JSON round-trip `parse (stringify v)` of the value `v` the fetcher
produced, hence equals `v` itself whenever `v` is stable under JSON
serialization. -/
theorem C9_hit_is_roundtrip {V ε : Type} (strf : V → String)
    (prs : String → V) (io1 io2 : CacheOutcomes ε) (st : CacheState) (key : String)
    (v : V) (f2 : Except ε V) (ttl ttl2 : Nat)
    (hmiss : st.lookup key = none)
    (h1g : io1.getErr = none) (h1s : io1.setErr = none)
    (h2g : io2.getErr = none) (hnz : strf v ≠ "") :
    (getCachedOrFetch strf prs io2
        (getCachedOrFetch strf prs io1 (some st) key (Except.ok v) ttl).2.1
        key f2 ttl2).1 = Except.ok (prs (strf v)) ∧
    (prs (strf v) = v →
      (getCachedOrFetch strf prs io2
          (getCachedOrFetch strf prs io1 (some st) key (Except.ok v) ttl).2.1
          key f2 ttl2).1 = Except.ok v) := by
  rw [getCachedOrFetch_populate strf prs io1 st key v ttl hmiss h1g h1s]
  simp only
  rw [getCachedOrFetch_hit strf prs io2 (st.setex key ttl (strf v)) key
    (strf v) ttl ttl2 f2 (lookup_setex_self st key ttl (strf v)) hnz h2g]
  exact ⟨rfl, fun h => by rw [h]⟩

/-- Witness for C9: with the unary serializer the round-trip is exact, so the
hit returns the original value. -/
theorem C9_hit_is_roundtrip_witness :
    CacheState.lookup ⟨[]⟩ "user:7" = none ∧ natStringify 3 ≠ "" ∧
    natParse (natStringify 3) = 3 ∧
    (getCachedOrFetch natStringify natParse (CacheOutcomes.allOk String)
        (getCachedOrFetch natStringify natParse (CacheOutcomes.allOk String)
          (some ⟨[]⟩) "user:7" (Except.ok 3) 300).2.1
        "user:7" (Except.error "unused") 300).1 = Except.ok 3 :=
  ⟨rfl, by decide, rfl,
    (C9_hit_is_roundtrip natStringify natParse (CacheOutcomes.allOk String)
      (CacheOutcomes.allOk String) ⟨[]⟩ "user:7" 3 (Except.error "unused") 300 300
      rfl rfl rfl rfl (by decide)).2 rfl⟩

/-- C10: when no stored key matches the pattern (and the keys enumeration
succeeds), `invalidateCache` issues no delete operation at all: the result is
success, the store is unchanged, and the trace contains no `del`. -/
theorem C10_no_del_when_no_match {ε : Type} (io : CacheOutcomes ε) (st : CacheState)
    (pattern : String)
    (hkeys : io.keysErr = none)
    (hnone : st.keysList.filter (fun k => globMatchS pattern k) = []) :
    invalidateCache io (some st) pattern =
      (Except.ok (), some st, [CacheEv.keys pattern]) ∧
    ∀ ks, CacheEv.del ks ∉ (invalidateCache io (some st) pattern).2.2 := by
  have h : invalidateCache io (some st) pattern =
      (Except.ok (), some st, [CacheEv.keys pattern]) := by
    simp [invalidateCache, hkeys, hnone]
  refine ⟨h, ?_⟩
  rw [h]
  simp

/-- Witness for C10: a store whose only key does not match the pattern. -/
theorem C10_no_del_when_no_match_witness :
    (CacheOutcomes.allOk String).keysErr = none ∧
    (CacheState.keysList ⟨[("user:1", ⟨"x", 300⟩)]⟩).filter
      (fun k => globMatchS "orders:*" k) = [] ∧
    (invalidateCache (CacheOutcomes.allOk String) (some ⟨[("user:1", ⟨"x", 300⟩)]⟩)
        "orders:*" =
      (Except.ok (), some ⟨[("user:1", ⟨"x", 300⟩)]⟩,
       [CacheEv.keys "orders:*"]) ∧
     ∀ ks, CacheEv.del ks ∉
       (invalidateCache (CacheOutcomes.allOk String)
         (some ⟨[("user:1", ⟨"x", 300⟩)]⟩) "orders:*").2.2) :=
  ⟨rfl, by decide,
    C10_no_del_when_no_match (CacheOutcomes.allOk String)
      ⟨[("user:1", ⟨"x", 300⟩)]⟩ "orders:*" rfl (by decide)⟩

theorem stepServer_none {V ε : Type} (strf : V → String) (prs : String → V)
    (ev : ServerEvent V ε) : stepServer strf prs none ev = none := by
  cases ev with
  | errorEvent => rfl
  | readOp io key f ttl => rfl
  | invalidateOp io p => rfl

/-- C7: a failing startup ping leaves the connection `null`; any runtime
error event drives it to `null`; once `null` it stays `null` under every
further event (no reconnect exists); and in that state every read calls the
fetcher directly and every invalidation is a no-op issuing no cache
operation. -/
theorem C7_disabled_is_permanent :
    ∀ (V ε : Type) (strf : V → String) (prs : String → V),
    initRedis false = none ∧
    (∀ redis : Option CacheState,
      stepServer (V := V) (ε := ε) strf prs redis ServerEvent.errorEvent = none) ∧
    (∀ evs : List (ServerEvent V ε),
      evs.foldl (stepServer strf prs) none = none) ∧
    (∀ (io : CacheOutcomes ε) (key : String) (f : Except ε V) (ttl : Nat),
      getCachedOrFetch strf prs io none key f ttl = (f, none, [CacheEv.fetchCall])) ∧
    (∀ (io : CacheOutcomes ε) (p : String),
      invalidateCache io none p = (Except.ok (), none, [])) := by
  intro V ε strf prs
  refine ⟨rfl, fun redis => rfl, ?_, fun io key f ttl => rfl, fun io p => rfl⟩
  intro evs
  induction evs with
  | nil => rfl
  | cons ev evs ih =>
    rw [List.foldl_cons, stepServer_none]
    exact ih

/-- C3 counterexample: with the connection live, a failing `redis.get` makes
`getCachedOrFetch` return that cache error instead of falling back to the
fetcher's result (`Except.ok 7`), and the error handler turns the read into a
500 — contradicting "cache errors are never propagated to the caller of a
read". -/
theorem C3_counterexample :
    (getCachedOrFetch natStringify natParse
        (⟨some "connection reset", none, none, none⟩ : CacheOutcomes String)
        (some ⟨[]⟩) "user:1" (Except.ok 7) 300).1 =
      Except.error "connection reset" ∧
    (getCachedOrFetch natStringify natParse
        (⟨some "connection reset", none, none, none⟩ : CacheOutcomes String)
        (some ⟨[]⟩) "user:1" (Except.ok 7) 300).1 ≠ Except.ok 7 ∧
    (runWithErrorHandler 200
        (getCachedOrFetch natStringify natParse
          (⟨some "connection reset", none, none, none⟩ : CacheOutcomes String)
          (some ⟨[]⟩) "user:1" (Except.ok 7) 300).1).status = 500 := by
  refine ⟨rfl, ?_, rfl⟩
  intro h
  simp [getCachedOrFetch, CacheOutcomes.getErr] at h

/-- C3 (amended): cache backend errors during a read are propagated, not
swallowed — with the connection live, a failing `redis.get` fails the read
with that error before the fetcher runs, and a failing `redis.setex` fails
the read with that error even though the fetch succeeded; only with the
backend unavailable (`redis = null`) is a read unaffected by the cache. -/
theorem C3_cache_errors_propagate {V ε : Type} (strf : V → String)
    (prs : String → V) (io : CacheOutcomes ε) (st : CacheState) (key : String)
    (f : Except ε V) (ttl : Nat) :
    (∀ e, io.getErr = some e →
      getCachedOrFetch strf prs io (some st) key f ttl =
        (Except.error e, some st, [CacheEv.get key])) ∧
    (∀ e v, io.getErr = none → st.lookup key = none → f = Except.ok v →
      io.setErr = some e →
      (getCachedOrFetch strf prs io (some st) key f ttl).1 = Except.error e) ∧
    (getCachedOrFetch strf prs io none key f ttl).1 = f := by
  refine ⟨?_, ?_, rfl⟩
  · intro e hget
    simp [getCachedOrFetch, hget]
  · intro e v hget hmiss hf hset
    subst hf
    simp [getCachedOrFetch, hget, hmiss, hset, jsTruthy]

/-- Witness for the amended C3: a concrete failing get and a concrete failing
setex each fail the read. -/
theorem C3_cache_errors_propagate_witness :
    (getCachedOrFetch natStringify natParse
        (⟨some "get failed", none, none, none⟩ : CacheOutcomes String)
        (some ⟨[]⟩) "user:2" (Except.ok 5) 300 =
      (Except.error "get failed", some ⟨[]⟩, [CacheEv.get "user:2"])) ∧
    (getCachedOrFetch natStringify natParse
        (⟨none, some "set failed", none, none⟩ : CacheOutcomes String)
        (some ⟨[]⟩) "user:2" (Except.ok 5) 300).1 =
      Except.error "set failed" :=
  ⟨(C3_cache_errors_propagate natStringify natParse
      (⟨some "get failed", none, none, none⟩ : CacheOutcomes String)
      ⟨[]⟩ "user:2" (Except.ok 5) 300).1 "get failed" rfl,
   (C3_cache_errors_propagate natStringify natParse
      (⟨none, some "set failed", none, none⟩ : CacheOutcomes String)
      ⟨[]⟩ "user:2" (Except.ok 5) 300).2.1 "set failed" 5 rfl rfl rfl rfl⟩

/-- C4 counterexample: the persistent update of user 42 succeeds
(`Except.ok 7`), the subsequent invalidation's `redis.keys` rejects, and the
PATCH handler reports the write as failed (a 500 with the cache error) —
contradicting "a failure of the cache invalidation does not fail the write". -/
theorem C4_counterexample :
    (patchUserRoute (V := Nat)
        (⟨none, none, some "keys failed", none⟩ : CacheOutcomes String)
        (CacheOutcomes.allOk String) (some ⟨[]⟩) "42" (Except.ok 7)).1 =
      Except.error "keys failed" ∧
    (patchUserRoute (V := Nat)
        (⟨none, none, some "keys failed", none⟩ : CacheOutcomes String)
        (CacheOutcomes.allOk String) (some ⟨[]⟩) "42" (Except.ok 7)).1 ≠
      Except.ok 7 ∧
    (runWithErrorHandler 200
        (patchUserRoute (V := Nat)
          (⟨none, none, some "keys failed", none⟩ : CacheOutcomes String)
          (CacheOutcomes.allOk String) (some ⟨[]⟩) "42" (Except.ok 7)).1).status =
      500 := by
  refine ⟨rfl, ?_, rfl⟩
  intro h
  simp [patchUserRoute, invalidateCache, CacheOutcomes.keysErr] at h

theorem invalidateCache_keysErr_eq {ε : Type} (io : CacheOutcomes ε)
    (st : CacheState) (pattern : String) (e : ε) (h : io.keysErr = some e) :
    invalidateCache io (some st) pattern =
      (Except.error e, some st, [CacheEv.keys pattern]) := by
  simp [invalidateCache, h]

theorem invalidateCache_delErr_eq {ε : Type} (io : CacheOutcomes ε)
    (st : CacheState) (pattern : String) (e : ε)
    (hk : io.keysErr = none) (hd : io.delErr = some e)
    (hpos : (st.keysList.filter (fun k => globMatchS pattern k)).length > 0) :
    (invalidateCache io (some st) pattern).1 = Except.error e := by
  simp [invalidateCache, hk, hd, hpos]

theorem patchUserRoute_inv1_error {V ε : Type} (io1 io2 : CacheOutcomes ε)
    (st : CacheState) (id : String) (row : V) (e : ε)
    (h : (invalidateCache io1 (some st) ("user:" ++ id)).1 = Except.error e) :
    (patchUserRoute io1 io2 (some st) id (Except.ok row)).1 = Except.error e := by
  simp [patchUserRoute, h]

theorem patchUserRoute_inv2_error {V ε : Type} (io1 io2 : CacheOutcomes ε)
    (st : CacheState) (id : String) (row : V) (e : ε)
    (h1 : (invalidateCache io1 (some st) ("user:" ++ id)).1 = Except.ok ())
    (h2 : (invalidateCache io2
        (invalidateCache io1 (some st) ("user:" ++ id)).2.1 "users:*").1 =
      Except.error e) :
    (patchUserRoute io1 io2 (some st) id (Except.ok row)).1 = Except.error e := by
  simp [patchUserRoute, h1, h2]

theorem patchUserRoute_ok_iff {V ε : Type} (io1 io2 : CacheOutcomes ε)
    (st : CacheState) (id : String) (row : V) :
    (patchUserRoute io1 io2 (some st) id (Except.ok row)).1 = Except.ok row ↔
      (invalidateCache io1 (some st) ("user:" ++ id)).1 = Except.ok () ∧
      (invalidateCache io2
        (invalidateCache io1 (some st) ("user:" ++ id)).2.1 "users:*").1 =
        Except.ok () := by
  constructor
  · intro hok
    cases h1 : (invalidateCache io1 (some st) ("user:" ++ id)).1 with
    | error e =>
      rw [patchUserRoute_inv1_error io1 io2 st id row e h1] at hok
      simp at hok
    | ok u =>
      cases u
      cases h2 : (invalidateCache io2
          (invalidateCache io1 (some st) ("user:" ++ id)).2.1 "users:*").1 with
      | error e =>
        rw [patchUserRoute_inv2_error io1 io2 st id row e h1 h2] at hok
        simp at hok
      | ok u2 =>
        cases u2
        exact ⟨rfl, rfl⟩
  · rintro ⟨h1, h2⟩
    simp [patchUserRoute, h1, h2]

theorem deleteUserRoute_inv1_error {ε : Type} (io1 io2 : CacheOutcomes ε)
    (st : CacheState) (id : String) (e : ε)
    (h : (invalidateCache io1 (some st) ("user:" ++ id)).1 = Except.error e) :
    (deleteUserRoute io1 io2 (some st) id (Except.ok ())).1 = Except.error e := by
  simp [deleteUserRoute, h]

theorem deleteUserRoute_inv2_error {ε : Type} (io1 io2 : CacheOutcomes ε)
    (st : CacheState) (id : String) (e : ε)
    (h1 : (invalidateCache io1 (some st) ("user:" ++ id)).1 = Except.ok ())
    (h2 : (invalidateCache io2
        (invalidateCache io1 (some st) ("user:" ++ id)).2.1 "users:*").1 =
      Except.error e) :
    (deleteUserRoute io1 io2 (some st) id (Except.ok ())).1 = Except.error e := by
  simp [deleteUserRoute, h1, h2]

theorem deleteUserRoute_ok_iff {ε : Type} (io1 io2 : CacheOutcomes ε)
    (st : CacheState) (id : String) :
    (deleteUserRoute io1 io2 (some st) id (Except.ok ())).1 = Except.ok () ↔
      (invalidateCache io1 (some st) ("user:" ++ id)).1 = Except.ok () ∧
      (invalidateCache io2
        (invalidateCache io1 (some st) ("user:" ++ id)).2.1 "users:*").1 =
        Except.ok () := by
  constructor
  · intro hok
    cases h1 : (invalidateCache io1 (some st) ("user:" ++ id)).1 with
    | error e =>
      rw [deleteUserRoute_inv1_error io1 io2 st id e h1] at hok
      simp at hok
    | ok u =>
      cases u
      cases h2 : (invalidateCache io2
          (invalidateCache io1 (some st) ("user:" ++ id)).2.1 "users:*").1 with
      | error e =>
        rw [deleteUserRoute_inv2_error io1 io2 st id e h1 h2] at hok
        simp at hok
      | ok u2 =>
        cases u2
        exact ⟨rfl, rfl⟩
  · rintro ⟨h1, h2⟩
    simp [deleteUserRoute, h1, h2]

theorem postUserRoute_inv_error {V ε : Type} (io1 : CacheOutcomes ε)
    (st : CacheState) (row : V) (e : ε)
    (h : (invalidateCache io1 (some st) "users:*").1 = Except.error e) :
    (postUserRoute io1 (some st) (Except.ok row)).1 = Except.error e := by
  simp [postUserRoute, h]

theorem postUserRoute_ok_iff {V ε : Type} (io1 : CacheOutcomes ε)
    (st : CacheState) (row : V) :
    (postUserRoute io1 (some st) (Except.ok row)).1 = Except.ok row ↔
      (invalidateCache io1 (some st) "users:*").1 = Except.ok () := by
  constructor
  · intro hok
    cases h1 : (invalidateCache io1 (some st) "users:*").1 with
    | error e =>
      rw [postUserRoute_inv_error io1 st row e h1] at hok
      simp at hok
    | ok u =>
      cases u
      rfl
  · intro h1
    simp [postUserRoute, h1]

/-- C4 (amended): for every user create/update/delete whose persistent-store
write succeeds, a failure of the subsequent cache invalidation DOES fail the
write: an invalidation call rejects exactly when one of the cache commands it
issues rejects — its keys enumeration, or its batch delete, issued when at
least one key matched — and any such rejection makes the handler return that
cache error, which the error handler reports as a 500, despite the committed
write. The operation is reported successful exactly when every awaited
invalidation call returns success, as always happens in degraded mode where
invalidation is a no-op. -/
theorem C4_invalidation_failure_fails_write {V ε : Type}
    (io1 io2 : CacheOutcomes ε) (st : CacheState) (id : String) (row : V) :
    (∀ (io : CacheOutcomes ε) (pattern : String) (e : ε),
      io.keysErr = some e →
      (invalidateCache io (some st) pattern).1 = Except.error e) ∧
    (∀ (io : CacheOutcomes ε) (pattern : String) (e : ε),
      io.keysErr = none → io.delErr = some e →
      (st.keysList.filter (fun k => globMatchS pattern k)).length > 0 →
      (invalidateCache io (some st) pattern).1 = Except.error e) ∧
    (∀ e, (invalidateCache io1 (some st) ("user:" ++ id)).1 = Except.error e →
      (patchUserRoute io1 io2 (some st) id (Except.ok row)).1 =
        Except.error e ∧
      (deleteUserRoute io1 io2 (some st) id (Except.ok ())).1 =
        Except.error e ∧
      (runWithErrorHandler 200
        (patchUserRoute io1 io2 (some st) id (Except.ok row)).1).status =
        500) ∧
    (∀ e, (invalidateCache io1 (some st) ("user:" ++ id)).1 = Except.ok () →
      (invalidateCache io2
        (invalidateCache io1 (some st) ("user:" ++ id)).2.1 "users:*").1 =
        Except.error e →
      (patchUserRoute io1 io2 (some st) id (Except.ok row)).1 =
        Except.error e ∧
      (deleteUserRoute io1 io2 (some st) id (Except.ok ())).1 =
        Except.error e) ∧
    ((patchUserRoute io1 io2 (some st) id (Except.ok row)).1 =
        Except.ok row ↔
      (invalidateCache io1 (some st) ("user:" ++ id)).1 = Except.ok () ∧
      (invalidateCache io2
        (invalidateCache io1 (some st) ("user:" ++ id)).2.1 "users:*").1 =
        Except.ok ()) ∧
    ((deleteUserRoute io1 io2 (some st) id (Except.ok ())).1 =
        Except.ok () ↔
      (invalidateCache io1 (some st) ("user:" ++ id)).1 = Except.ok () ∧
      (invalidateCache io2
        (invalidateCache io1 (some st) ("user:" ++ id)).2.1 "users:*").1 =
        Except.ok ()) ∧
    (∀ e, (invalidateCache io1 (some st) "users:*").1 = Except.error e →
      (postUserRoute io1 (some st) (Except.ok row)).1 = Except.error e ∧
      (runWithErrorHandler 200
        (postUserRoute io1 (some st) (Except.ok row)).1).status = 500) ∧
    ((postUserRoute io1 (some st) (Except.ok row)).1 = Except.ok row ↔
      (invalidateCache io1 (some st) "users:*").1 = Except.ok ()) ∧
    ((patchUserRoute io1 io2 none id (Except.ok row)).1 = Except.ok row ∧
     (deleteUserRoute io1 io2 none id (Except.ok ())).1 = Except.ok () ∧
     (postUserRoute io1 none (Except.ok row)).1 = Except.ok row) := by
  refine ⟨?_, ?_, ?_, ?_, patchUserRoute_ok_iff io1 io2 st id row,
    deleteUserRoute_ok_iff io1 io2 st id, ?_,
    postUserRoute_ok_iff io1 st row, ?_, ?_, ?_⟩
  · intro io pattern e h
    rw [invalidateCache_keysErr_eq io st pattern e h]
  · intro io pattern e hk hd hpos
    exact invalidateCache_delErr_eq io st pattern e hk hd hpos
  · intro e h
    refine ⟨patchUserRoute_inv1_error io1 io2 st id row e h,
      deleteUserRoute_inv1_error io1 io2 st id e h, ?_⟩
    rw [patchUserRoute_inv1_error io1 io2 st id row e h]
    rfl
  · intro e h1 h2
    exact ⟨patchUserRoute_inv2_error io1 io2 st id row e h1 h2,
      deleteUserRoute_inv2_error io1 io2 st id e h1 h2⟩
  · intro e h
    refine ⟨postUserRoute_inv_error io1 st row e h, ?_⟩
    rw [postUserRoute_inv_error io1 st row e h]
    rfl
  · simp [patchUserRoute, invalidateCache]
  · simp [deleteUserRoute, invalidateCache]
  · simp [postUserRoute, invalidateCache]

/-- Witness for the amended C4: a rejected keys enumeration fails the PATCH
with a 500, a rejected delete (one key matched) fails the DELETE, the all-ok
PATCH and degraded-mode POST succeed. -/
theorem C4_invalidation_failure_fails_write_witness :
    (patchUserRoute (V := Nat)
        (⟨none, none, some "enumerate failed", none⟩ : CacheOutcomes String)
        (CacheOutcomes.allOk String) (some ⟨[]⟩) "9" (Except.ok 4)).1 =
      Except.error "enumerate failed" ∧
    (runWithErrorHandler 200
        (patchUserRoute (V := Nat)
          (⟨none, none, some "enumerate failed", none⟩ : CacheOutcomes String)
          (CacheOutcomes.allOk String) (some ⟨[]⟩) "9"
          (Except.ok 4)).1).status = 500 ∧
    (invalidateCache
        (⟨none, none, none, some "delete failed"⟩ : CacheOutcomes String)
        (some ⟨[("user:9", ⟨"a", 300⟩)]⟩) "user:9").1 =
      Except.error "delete failed" ∧
    (deleteUserRoute
        (⟨none, none, none, some "delete failed"⟩ : CacheOutcomes String)
        (CacheOutcomes.allOk String) (some ⟨[("user:9", ⟨"a", 300⟩)]⟩) "9"
        (Except.ok ())).1 = Except.error "delete failed" ∧
    (patchUserRoute (V := Nat) (CacheOutcomes.allOk String)
        (CacheOutcomes.allOk String) (some ⟨[]⟩) "9" (Except.ok 4)).1 =
      Except.ok 4 ∧
    (postUserRoute (V := Nat) (CacheOutcomes.allOk String) none
        (Except.ok 4)).1 = Except.ok 4 := by
  obtain ⟨a1, a2, p1, p2, iffp, iffd, o1, iffo, g⟩ :=
    C4_invalidation_failure_fails_write (V := Nat)
      (⟨none, none, some "enumerate failed", none⟩ : CacheOutcomes String)
      (CacheOutcomes.allOk String) ⟨[]⟩ "9" 4
  obtain ⟨b1, b2, q1, q2, iffp2, iffd2, o12, iffo2, g2⟩ :=
    C4_invalidation_failure_fails_write (V := Nat)
      (⟨none, none, none, some "delete failed"⟩ : CacheOutcomes String)
      (CacheOutcomes.allOk String) ⟨[("user:9", ⟨"a", 300⟩)]⟩ "9" 4
  obtain ⟨c1, c2, r1, r2, iffp3, iffd3, o13, iffo3, g3⟩ :=
    C4_invalidation_failure_fails_write (V := Nat)
      (CacheOutcomes.allOk String) (CacheOutcomes.allOk String) ⟨[]⟩ "9" 4
  exact ⟨(p1 "enumerate failed" rfl).1, (p1 "enumerate failed" rfl).2.2,
    b2 (⟨none, none, none, some "delete failed"⟩ : CacheOutcomes String)
      "user:9" "delete failed" rfl rfl (by decide),
    (q1 "delete failed" rfl).2.1,
    iffp3.mpr ⟨rfl, rfl⟩, g3.2.2⟩

/-- C8 counterexample: the users listing (`GET /api/users`, key `users:all`)
is a listing query, yet on a miss it stores its entry with TTL 300 (the
default), not the short listing TTL of 60 — contradicting "a short TTL of 60
seconds for filtered/listing queries". -/
theorem C8_counterexample :
    (getUsersRoute natStringify natParse (CacheOutcomes.allOk String) (some ⟨[]⟩)
        (Except.ok 2)).2.1 =
      some ⟨[("users:all", ⟨"xx", 300⟩)]⟩ ∧
    CacheEv.setex "users:all" 300 "xx" ∈
      (getUsersRoute natStringify natParse (CacheOutcomes.allOk String) (some ⟨[]⟩)
        (Except.ok 2)).2.2 ∧
    (300 : Nat) ≠ 60 := by
  refine ⟨rfl, ?_, by decide⟩
  simp [getUsersRoute, getCachedOrFetch, ttlDefault, jsTruthy,
    CacheState.lookup, CacheOutcomes.allOk, natStringify]

/-- C8 (amended): each entry is stored with the TTL its route passes: the
orders listing uses the short TTL 60, the single-user-by-id lookup uses the
300-second default, and the users listing also uses the 300-second default
rather than the short listing TTL. -/
theorem C8_ttl_per_route {V ε : Type} (strf : V → String) (prs : String → V)
    (io : CacheOutcomes ε) (st : CacheState) (v : V) (id paramsJson : String)
    (hget : io.getErr = none) (hset : io.setErr = none)
    (h1 : st.lookup "users:all" = none)
    (h2 : st.lookup ("user:" ++ id) = none)
    (h3 : st.lookup ("orders:" ++ paramsJson) = none) :
    (∃ st2, (getUsersRoute strf prs io (some st) (Except.ok v)).2.1 = some st2 ∧
      st2.lookup "users:all" = some ⟨strf v, 300⟩) ∧
    (∃ st2, (getUserByIdRoute strf prs io (some st) id (Except.ok v)).2.1 =
        some st2 ∧
      st2.lookup ("user:" ++ id) = some ⟨strf v, 300⟩) ∧
    (∃ st2, (getOrdersRoute strf prs io (some st) paramsJson
        (Except.ok v)).2.1 = some st2 ∧
      st2.lookup ("orders:" ++ paramsJson) = some ⟨strf v, 60⟩) := by
  refine ⟨?_, ?_, ?_⟩
  · rw [getUsersRoute,
      getCachedOrFetch_populate strf prs io st "users:all" v ttlDefault h1 hget hset]
    exact ⟨_, rfl, lookup_setex_self st "users:all" ttlDefault (strf v)⟩
  · rw [getUserByIdRoute,
      getCachedOrFetch_populate strf prs io st ("user:" ++ id) v ttlDefault h2 hget hset]
    exact ⟨_, rfl, lookup_setex_self st ("user:" ++ id) ttlDefault (strf v)⟩
  · rw [getOrdersRoute,
      getCachedOrFetch_populate strf prs io st ("orders:" ++ paramsJson) v
        ttlOrdersList h3 hget hset]
    exact ⟨_, rfl, lookup_setex_self st ("orders:" ++ paramsJson) ttlOrdersList (strf v)⟩

/-- Witness for the amended C8 on an empty cache. -/
theorem C8_ttl_per_route_witness :
    (∃ st2, (getUsersRoute natStringify natParse (CacheOutcomes.allOk String)
        (some ⟨[]⟩) (Except.ok 2)).2.1 = some st2 ∧
      st2.lookup "users:all" = some ⟨natStringify 2, 300⟩) ∧
    (∃ st2, (getUserByIdRoute natStringify natParse (CacheOutcomes.allOk String)
        (some ⟨[]⟩) "42" (Except.ok 2)).2.1 = some st2 ∧
      st2.lookup ("user:" ++ "42") = some ⟨natStringify 2, 300⟩) ∧
    (∃ st2, (getOrdersRoute natStringify natParse (CacheOutcomes.allOk String)
        (some ⟨[]⟩) "q1" (Except.ok 2)).2.1 = some st2 ∧
      st2.lookup ("orders:" ++ "q1") = some ⟨natStringify 2, 60⟩) :=
  C8_ttl_per_route natStringify natParse (CacheOutcomes.allOk String) ⟨[]⟩ 2 "42"
    "q1" rfl rfl rfl rfl rfl

theorem users_star_matches_prefix (r : String) :
    globMatchS "users:*" ("users:" ++ r) = true := by
  rw [globMatchS, string_toList_append]
  have h1 : ("users:*" : String).toList = "users:".toList ++ ['*'] := by decide
  rw [h1]
  exact globMatch_lit_star r.toList (by decide)

theorem lookup_after_del_filter_self (st : CacheState) (key : String)
    (hkey : ∀ c ∈ key.toList, c ≠ '*' ∧ c ≠ '?') :
    (st.del (st.keysList.filter (fun k => globMatchS key k))).lookup key =
      none := by
  cases hl : st.lookup key with
  | none => exact lookup_del_none _ hl
  | some e =>
    apply lookup_del_of_mem
    rw [List.mem_filter]
    exact ⟨mem_keysList_of_lookup hl, globMatch_self hkey⟩

theorem lookup_after_del_users_star (st : CacheState) (r : String) :
    (st.del (st.keysList.filter (fun k => globMatchS "users:*" k))).lookup
      ("users:" ++ r) = none := by
  cases hl : st.lookup ("users:" ++ r) with
  | none => exact lookup_del_none _ hl
  | some e =>
    apply lookup_del_of_mem
    rw [List.mem_filter]
    exact ⟨mem_keysList_of_lookup hl, users_star_matches_prefix r⟩

theorem user_key_literal {id : String}
    (hid : ∀ c ∈ id.toList, c ≠ '*' ∧ c ≠ '?') :
    ∀ c ∈ ("user:" ++ id).toList, c ≠ '*' ∧ c ≠ '?' := by
  intro c hc
  rw [string_toList_append] at hc
  rcases List.mem_append.mp hc with h | h
  · revert h
    have : ∀ c ∈ ("user:" : String).toList, c ≠ '*' ∧ c ≠ '?' := by decide
    exact this c
  · exact hid c h

theorem patchUserRoute_ok_state {V ε : Type} (io1 io2 : CacheOutcomes ε)
    (st : CacheState) (id : String) (row : V)
    (h1k : io1.keysErr = none) (h1d : io1.delErr = none)
    (h2k : io2.keysErr = none) (h2d : io2.delErr = none) :
    (patchUserRoute io1 io2 (some st) id (Except.ok row)).1 = Except.ok row ∧
    (patchUserRoute io1 io2 (some st) id (Except.ok row)).2.1 =
      some (CacheState.del
        (st.del (st.keysList.filter (fun k => globMatchS ("user:" ++ id) k)))
        ((st.del (st.keysList.filter
            (fun k => globMatchS ("user:" ++ id) k))).keysList.filter
          (fun k => globMatchS "users:*" k))) := by
  obtain ⟨tr1, e1⟩ := invalidateCache_ok_eq io1 st ("user:" ++ id) h1k h1d
  obtain ⟨tr2, e2⟩ := invalidateCache_ok_eq io2
    (st.del (st.keysList.filter (fun k => globMatchS ("user:" ++ id) k)))
    "users:*" h2k h2d
  simp [patchUserRoute, e1, e2]

theorem deleteUserRoute_ok_state {ε : Type} (io1 io2 : CacheOutcomes ε)
    (st : CacheState) (id : String)
    (h1k : io1.keysErr = none) (h1d : io1.delErr = none)
    (h2k : io2.keysErr = none) (h2d : io2.delErr = none) :
    (deleteUserRoute io1 io2 (some st) id (Except.ok ())).1 = Except.ok () ∧
    (deleteUserRoute io1 io2 (some st) id (Except.ok ())).2.1 =
      some (CacheState.del
        (st.del (st.keysList.filter (fun k => globMatchS ("user:" ++ id) k)))
        ((st.del (st.keysList.filter
            (fun k => globMatchS ("user:" ++ id) k))).keysList.filter
          (fun k => globMatchS "users:*" k))) := by
  obtain ⟨tr1, e1⟩ := invalidateCache_ok_eq io1 st ("user:" ++ id) h1k h1d
  obtain ⟨tr2, e2⟩ := invalidateCache_ok_eq io2
    (st.del (st.keysList.filter (fun k => globMatchS ("user:" ++ id) k)))
    "users:*" h2k h2d
  simp [deleteUserRoute, e1, e2]

theorem postUserRoute_ok_state {V ε : Type} (io1 : CacheOutcomes ε)
    (st : CacheState) (row : V)
    (h1k : io1.keysErr = none) (h1d : io1.delErr = none) :
    (postUserRoute io1 (some st) (Except.ok row)).1 = Except.ok row ∧
    (postUserRoute io1 (some st) (Except.ok row)).2.1 =
      some (st.del (st.keysList.filter (fun k => globMatchS "users:*" k))) := by
  obtain ⟨tr1, e1⟩ := invalidateCache_ok_eq io1 st "users:*" h1k h1d
  simp [postUserRoute, e1]

/-- C5: after a successful PATCH or DELETE of user `id` (with every cache
command succeeding, and `id` free of glob metacharacters as the source's
uuid/nanoid ids are), the handler reports success with the exact `user:{id}`
key and every `users:*` listing key already purged, so a subsequent
`getCachedOrFetch` for `user:{id}` or for the users listing re-invokes the
fetcher; after a successful POST the `users:*` listing keys are purged and a
`user:{id}` key for the fresh id (absent before, since failed by-id fetches
are never cached) is still absent. -/
theorem C5_write_purges_then_responds {V ε : Type} (strf : V → String)
    (prs : String → V) (io1 io2 : CacheOutcomes ε) (st : CacheState) (id : String)
    (row : V)
    (h1k : io1.keysErr = none) (h1d : io1.delErr = none)
    (h2k : io2.keysErr = none) (h2d : io2.delErr = none)
    (hid : ∀ c ∈ id.toList, c ≠ '*' ∧ c ≠ '?') :
    ((patchUserRoute io1 io2 (some st) id (Except.ok row)).1 = Except.ok row ∧
     ∃ st2, (patchUserRoute io1 io2 (some st) id (Except.ok row)).2.1 =
         some st2 ∧
       st2.lookup ("user:" ++ id) = none ∧
       (∀ r, st2.lookup ("users:" ++ r) = none) ∧
       (∀ (io3 : CacheOutcomes ε) (f : Except ε V) (ttl : Nat), io3.getErr = none →
         CacheEv.fetchCall ∈
           (getCachedOrFetch strf prs io3 (some st2) ("user:" ++ id) f ttl).2.2) ∧
       (∀ (io3 : CacheOutcomes ε) (f : Except ε V), io3.getErr = none →
         CacheEv.fetchCall ∈ (getUsersRoute strf prs io3 (some st2) f).2.2)) ∧
    ((deleteUserRoute io1 io2 (some st) id (Except.ok ())).1 = Except.ok () ∧
     ∃ st2, (deleteUserRoute io1 io2 (some st) id (Except.ok ())).2.1 =
         some st2 ∧
       st2.lookup ("user:" ++ id) = none ∧
       (∀ r, st2.lookup ("users:" ++ r) = none) ∧
       (∀ (io3 : CacheOutcomes ε) (f : Except ε V) (ttl : Nat), io3.getErr = none →
         CacheEv.fetchCall ∈
           (getCachedOrFetch strf prs io3 (some st2) ("user:" ++ id) f ttl).2.2) ∧
       (∀ (io3 : CacheOutcomes ε) (f : Except ε V), io3.getErr = none →
         CacheEv.fetchCall ∈ (getUsersRoute strf prs io3 (some st2) f).2.2)) ∧
    ((postUserRoute io1 (some st) (Except.ok row)).1 = Except.ok row ∧
     ∃ st2, (postUserRoute io1 (some st) (Except.ok row)).2.1 = some st2 ∧
       (st.lookup ("user:" ++ id) = none →
         st2.lookup ("user:" ++ id) = none) ∧
       (∀ r, st2.lookup ("users:" ++ r) = none) ∧
       (∀ (io3 : CacheOutcomes ε) (f : Except ε V), io3.getErr = none →
         CacheEv.fetchCall ∈ (getUsersRoute strf prs io3 (some st2) f).2.2)) := by
  have hUserGone :
      (CacheState.del
        (st.del (st.keysList.filter (fun k => globMatchS ("user:" ++ id) k)))
        ((st.del (st.keysList.filter
            (fun k => globMatchS ("user:" ++ id) k))).keysList.filter
          (fun k => globMatchS "users:*" k))).lookup ("user:" ++ id) = none :=
    lookup_del_none _
      (lookup_after_del_filter_self st ("user:" ++ id) (user_key_literal hid))
  have hUsersGone : ∀ r,
      (CacheState.del
        (st.del (st.keysList.filter (fun k => globMatchS ("user:" ++ id) k)))
        ((st.del (st.keysList.filter
            (fun k => globMatchS ("user:" ++ id) k))).keysList.filter
          (fun k => globMatchS "users:*" k))).lookup ("users:" ++ r) = none :=
    fun r => lookup_after_del_users_star _ r
  refine ⟨?_, ?_, ?_⟩
  · obtain ⟨hres, hstate⟩ :=
      patchUserRoute_ok_state io1 io2 st id row h1k h1d h2k h2d
    refine ⟨hres, _, hstate, hUserGone, hUsersGone, ?_, ?_⟩
    · intro io3 f ttl h3
      exact fetchCall_of_miss strf prs io3 _ _ f ttl hUserGone h3
    · intro io3 f h3
      exact fetchCall_of_miss strf prs io3 _ _ f ttlDefault (hUsersGone "all") h3
  · obtain ⟨hres, hstate⟩ :=
      deleteUserRoute_ok_state io1 io2 st id h1k h1d h2k h2d
    refine ⟨hres, _, hstate, hUserGone, hUsersGone, ?_, ?_⟩
    · intro io3 f ttl h3
      exact fetchCall_of_miss strf prs io3 _ _ f ttl hUserGone h3
    · intro io3 f h3
      exact fetchCall_of_miss strf prs io3 _ _ f ttlDefault (hUsersGone "all") h3
  · obtain ⟨hres, hstate⟩ := postUserRoute_ok_state io1 st row h1k h1d
    refine ⟨hres, _, hstate, ?_, ?_, ?_⟩
    · intro habs
      exact lookup_del_none _ habs
    · intro r
      exact lookup_after_del_users_star st r
    · intro io3 f h3
      exact fetchCall_of_miss strf prs io3 _ _ f ttlDefault
        (lookup_after_del_users_star st "all") h3

/-- Witness for C5: a cache populated with both a `user:42` entry and the
users listing; all three write routes succeed after purging. -/
theorem C5_write_purges_then_responds_witness :
    (patchUserRoute (V := Nat) (CacheOutcomes.allOk String) (CacheOutcomes.allOk String)
        (some ⟨[("user:42", ⟨"a", 300⟩), ("users:all", ⟨"b", 300⟩)]⟩) "42"
        (Except.ok 1)).1 = Except.ok 1 ∧
    (deleteUserRoute (CacheOutcomes.allOk String) (CacheOutcomes.allOk String)
        (some ⟨[("user:42", ⟨"a", 300⟩), ("users:all", ⟨"b", 300⟩)]⟩) "42"
        (Except.ok ())).1 = Except.ok () ∧
    (postUserRoute (V := Nat) (CacheOutcomes.allOk String)
        (some ⟨[("user:42", ⟨"a", 300⟩), ("users:all", ⟨"b", 300⟩)]⟩)
        (Except.ok 1)).1 = Except.ok 1 :=
  have h := C5_write_purges_then_responds natStringify natParse
    (CacheOutcomes.allOk String) (CacheOutcomes.allOk String)
    ⟨[("user:42", ⟨"a", 300⟩), ("users:all", ⟨"b", 300⟩)]⟩ "42" 1
    rfl rfl rfl rfl (by decide)
  ⟨h.1.1, h.2.1.1, h.2.2.1⟩
